import Mathlib

/-!
Verification of the upload-CRUD backend of the `csv-upload` repository.

The repository ships two parallel implementations of the same CRUD surface:
  * a FastAPI/SQLAlchemy service in `src/backend/main.py` (namespace `Fastapi`),
  * a Django/DRF service in `src/backend/server/uploads/` (namespace `Django`),
plus a chart-spec post-processor in `src/backend/server/uploads/chart_service.py`
(namespace `Chart`).

Modelling conventions:
  * Python dicts parsed from JSON are modelled as association lists with unique
    keys; lookup is first-match.
  * `rows` (a JSON array of string-to-string objects) and `mapping` are kept as
    structured values.  `main.py` stores them as `json.dumps` text and reads them
    back with `json.loads`; that round-trip is value-preserving for these shapes
    and is modelled as the identity.
  * Machine integers do not overflow in any reachable computation here (lengths
    and ids), so `Nat`/`Int` are used directly.
  * Timestamps (`created_at`, set once from `datetime.utcnow`) are modelled as a
    `Nat` supplied by the caller.
-/

set_option autoImplicit false

/-- One uploaded row: a JSON object mapping string keys to string values
(`rows: List[Dict[str, str]]` in `main.py`). -/
abbrev Row := List (String × String)

/-- The column mapping: JSON object from source column name to destination
field name or null (`mapping: Dict[str, Optional[str]]` in `main.py`). -/
abbrev Mapping := List (String × Option String)

/-- A JSON value, as produced by `json.loads` / accepted by the request body
parsers.  Numbers are modelled as integers (no claim involves fractional
numbers). -/
inductive JVal where
  | null
  | bool (b : Bool)
  | num (n : Int)
  | str (s : String)
  | arr (xs : List JVal)
  | obj (fs : List (String × JVal))

mutual

/-- Python `str()` of a JSON value: `str(None) = "None"`, `str(True) = "True"`,
numbers render as digits.  For lists and dicts only the surrounding brackets
matter to any property proved here (a bracketed rendering is never one of the
allowed chart types), so the element rendering reuses `pyStr` rather than
Python's exact `repr` quoting. -/
def pyStr : JVal → String
  | .null => "None"
  | .bool true => "True"
  | .bool false => "False"
  | .num n => toString n
  | .str s => s
  | .arr xs => "[" ++ pyStrList xs ++ "]"
  | .obj fs => "\x7b" ++ pyStrObj fs ++ "\x7d"

def pyStrList : List JVal → String
  | [] => ""
  | [x] => pyStr x
  | x :: xs => pyStr x ++ ", " ++ pyStrList xs

def pyStrObj : List (String × JVal) → String
  | [] => ""
  | [(k, v)] => k ++ ": " ++ pyStr v
  | (k, v) :: fs => k ++ ": " ++ pyStr v ++ ", " ++ pyStrObj fs

end

/-- A serialized response-body field value.  Response bodies are association
lists of field name to `Val`, so that the presence or absence of a field
(e.g. `rows`) is expressible. -/
inductive Val where
  | nat (n : Nat)
  | str (s : String)
  | rowsV (r : List Row)
  | mapV (m : Mapping)
  | null
deriving DecidableEq, Repr

/-- A stored upload record (`class Upload` in `main.py`, `models.Upload` in the
Django app: id, workbook, mapping, rows, row_count, created_at). -/
structure Rec where
  id : Nat
  workbook : String
  rows : List Row
  mapping : Mapping
  row_count : Nat
  created_at : Nat
deriving DecidableEq, Repr

/-- The uploads table: records in insertion order plus the next
auto-increment primary key. -/
structure Store where
  recs : List Rec
  nextId : Nat
deriving DecidableEq, Repr

def Store.empty : Store := ⟨[], 1⟩

/-- Primary-key lookup (`db.get(Upload, upload_id)` / `qs.get(pk=...)`). -/
def dbGet (s : Store) (uid : Nat) : Option Rec :=
  s.recs.find? (fun r => r.id == uid)

/-- Well-formedness of the store: every persisted id is below the
auto-increment counter (true of every reachable store). -/
def Store.wfb (s : Store) : Bool :=
  s.recs.all (fun r => r.id < s.nextId)

/-- Records ordered by id descending (`order_by(Upload.id.desc())` in
`main.py`; `Meta.ordering = ["-id"]` in the Django model), as an insertion
sort. -/
def insertByIdDesc (r : Rec) : List Rec → List Rec
  | [] => [r]
  | q :: l => if q.id ≤ r.id then r :: q :: l else q :: insertByIdDesc r l

def sortByIdDesc : List Rec → List Rec
  | [] => []
  | r :: l => insertByIdDesc r (sortByIdDesc l)

/-- The workbook filter shared by both list endpoints: `if workbook:` is
Python truthiness, so an empty string disables the filter. -/
def matchingRecs (s : Store) (workbook : Option String) : List Rec :=
  match workbook with
  | some w => if w = "" then s.recs else s.recs.filter (fun r => r.workbook == w)
  | none => s.recs

namespace Fastapi

/-- An HTTP error (`HTTPException(status_code, detail)`). -/
structure HErr where
  status : Nat
  detail : String
deriving DecidableEq, Repr

/-- Limits from `main.py`. -/
def MAX_ROWS : Nat := 10000
def MAX_MAPPING_KEYS : Nat := 1000
def MAX_WORKBOOK_LEN : Nat := 255
def MAX_PAGE_SIZE : Nat := 100

/-- `validate_payload` from `main.py`.  The `isinstance` checks are
trivially satisfied in this typed embedding; `not workbook` on a string is
the empty-string test; `len(mapping.keys())` is the entry count (keys of a
parsed JSON object are unique). -/
def validate_payload (workbook : String) (rows : List Row) (mapping : Mapping) :
    Except HErr Unit :=
  if workbook = "" then
    .error ⟨422, "workbook is required"⟩
  else if workbook.length > MAX_WORKBOOK_LEN then
    .error ⟨422, "workbook too long (>255)"⟩
  else if rows.length > MAX_ROWS then
    .error ⟨413, "Too many rows (>10000)"⟩
  else if mapping.length > MAX_MAPPING_KEYS then
    .error ⟨422, "Too many mapping keys (>1000)"⟩
  else
    .ok ()

/-- Parsed request body for create and full replace (`class UploadIn`). -/
structure UploadIn where
  workbook : String
  rows : List Row
  mapping : Mapping
deriving DecidableEq, Repr

/-- Parsed request body for patch (`class UploadUpdate`, all fields
optional). -/
structure UploadUpdate where
  workbook : Option String := none
  rows : Option (List Row) := none
  mapping : Option Mapping := none
deriving DecidableEq, Repr

/-- `create_upload`: validate, compute `row_count = len(rows)`, persist with a
fresh id and the current timestamp, return the record. -/
def create_upload (s : Store) (p : UploadIn) (now : Nat) :
    Except HErr (Store × Rec) :=
  match validate_payload p.workbook p.rows p.mapping with
  | .error e => .error e
  | .ok _ =>
    let r : Rec :=
      ⟨s.nextId, p.workbook, p.rows, p.mapping, p.rows.length, now⟩
    .ok (⟨s.recs ++ [r], s.nextId + 1⟩, r)

/-- `get_upload`: primary-key lookup, 404 when absent. -/
def get_upload (s : Store) (uid : Nat) : Except HErr Rec :=
  match dbGet s uid with
  | none => .error ⟨404, "Not found"⟩
  | some r => .ok r

/-- `delete_upload`: 404 when absent, otherwise remove the record (the id is
a unique primary key, so removing every record with this id deletes exactly
the fetched row). -/
def delete_upload (s : Store) (uid : Nat) : Except HErr Store :=
  match dbGet s uid with
  | none => .error ⟨404, "Not found"⟩
  | some _ => .ok ⟨s.recs.filter (fun r => r.id != uid), s.nextId⟩

/-- `put_upload`: 404 when absent, then validate and overwrite
workbook/rows/mapping, recomputing `row_count`; `id` and `created_at` are
not assigned. -/
def put_upload (s : Store) (uid : Nat) (p : UploadIn) :
    Except HErr (Store × Rec) :=
  match dbGet s uid with
  | none => .error ⟨404, "Not found"⟩
  | some r =>
    match validate_payload p.workbook p.rows p.mapping with
    | .error e => .error e
    | .ok _ =>
      let r' : Rec :=
        { r with workbook := p.workbook, rows := p.rows,
                 mapping := p.mapping, row_count := p.rows.length }
      .ok (⟨s.recs.map (fun q => if q.id == uid then r' else q), s.nextId⟩, r')

/-- `patch_upload`: 404 when absent; merge provided fields over the existing
record (`json.loads` of the stored text is the stored value), validate the
merged triple, then overwrite and recompute `row_count = len(new_rows)`. -/
def patch_upload (s : Store) (uid : Nat) (p : UploadUpdate) :
    Except HErr (Store × Rec) :=
  match dbGet s uid with
  | none => .error ⟨404, "Not found"⟩
  | some r =>
    let nw := p.workbook.getD r.workbook
    let nr := p.rows.getD r.rows
    let nm := p.mapping.getD r.mapping
    match validate_payload nw nr nm with
    | .error e => .error e
    | .ok _ =>
      let r' : Rec :=
        { r with workbook := nw, rows := nr, mapping := nm,
                 row_count := nr.length }
      .ok (⟨s.recs.map (fun q => if q.id == uid then r' else q), s.nextId⟩, r')

/-- Serialization through `response_model=UploadOut` (`class UploadOut`): the
body carries exactly `id`, `workbook`, `row_count`, `created_at` — neither
`rows` nor `mapping`. -/
def uploadOutJson (r : Rec) : List (String × Val) :=
  [("id", .nat r.id), ("workbook", .str r.workbook),
   ("row_count", .nat r.row_count), ("created_at", .nat r.created_at)]

/-- Pydantic parsing of the required `workbook: str` field of `UploadIn`
(pydantic v2 does not coerce non-strings to `str`): a missing field or a
non-string JSON value is rejected with a 422 validation error before the
handler runs. -/
def parseWorkbookStr : Option JVal → Except HErr String
  | some (.str s) => .ok s
  | none => .error ⟨422, "Field required"⟩
  | some _ => .error ⟨422, "Input should be a valid string"⟩

/-- Pydantic parsing of the optional `workbook: Optional[str]` field of
`UploadUpdate`: absent or JSON null yields `None`; a non-string, non-null
value is a 422 validation error. -/
def parsePatchWorkbook : Option JVal → Except HErr (Option String)
  | none => .ok none
  | some .null => .ok none
  | some (.str s) => .ok (some s)
  | some _ => .error ⟨422, "Input should be a valid string"⟩

/-- Create with the workbook field still at the JSON level (the claims vary
only the workbook field, so `rows`/`mapping` are taken already parsed). -/
def createFromRaw (s : Store) (rawWorkbook : Option JVal) (rows : List Row)
    (mapping : Mapping) (now : Nat) : Except HErr (Store × Rec) :=
  match parseWorkbookStr rawWorkbook with
  | .error e => .error e
  | .ok w => create_upload s ⟨w, rows, mapping⟩ now

def putFromRaw (s : Store) (uid : Nat) (rawWorkbook : Option JVal)
    (rows : List Row) (mapping : Mapping) : Except HErr (Store × Rec) :=
  match parseWorkbookStr rawWorkbook with
  | .error e => .error e
  | .ok w => put_upload s uid ⟨w, rows, mapping⟩

def patchFromRaw (s : Store) (uid : Nat) (rawWorkbook : Option JVal)
    (rows : Option (List Row)) (mapping : Option Mapping) :
    Except HErr (Store × Rec) :=
  match parsePatchWorkbook rawWorkbook with
  | .error e => .error e
  | .ok w => patch_upload s uid ⟨w, rows, mapping⟩

/-- The create route as seen on the wire: `@app.post` carries no
`status_code`, so FastAPI's default success status 200 applies; the body is
the `UploadOut` serialization; on error the exception's status is returned
and the store is untouched. -/
def createRoute (s : Store) (rawWorkbook : Option JVal) (rows : List Row)
    (mapping : Mapping) (now : Nat) : Nat × List (String × Val) × Store :=
  match createFromRaw s rawWorkbook rows mapping now with
  | .ok (s', r) => (200, uploadOutJson r, s')
  | .error e => (e.status, [("detail", .str e.detail)], s)

/-- The get route: success status 200 with the `UploadOut` body. -/
def getRoute (s : Store) (uid : Nat) : Nat × List (String × Val) :=
  match get_upload s uid with
  | .ok r => (200, uploadOutJson r)
  | .error e => (e.status, [("detail", .str e.detail)])

/-- Status-and-store views of the raw put and patch routes. -/
def putRoute (s : Store) (uid : Nat) (rawWorkbook : Option JVal)
    (rows : List Row) (mapping : Mapping) : Nat × Store :=
  match putFromRaw s uid rawWorkbook rows mapping with
  | .ok (s', _) => (200, s')
  | .error e => (e.status, s)

def patchRoute (s : Store) (uid : Nat) (rawWorkbook : Option JVal)
    (rows : Option (List Row)) (mapping : Option Mapping) : Nat × Store :=
  match patchFromRaw s uid rawWorkbook rows mapping with
  | .ok (s', _) => (200, s')
  | .error e => (e.status, s)

/-- `list_uploads`: query parameters `limit: int = Query(50, ge=1, le=100)`
and `offset: int = Query(0, ge=0)` are validated by FastAPI — an
out-of-range value is a 422 request-validation error, not clamped.  `none`
models an omitted parameter (the query default applies).  The filter count
is taken before the page is cut; items are ordered by id descending and
serialized through `UploadOut`. -/
def list_uploads (s : Store) (limit : Option Int) (offset : Option Int)
    (workbook : Option String) :
    Except HErr (List (List (String × Val)) × Nat) :=
  let l := limit.getD 50
  let o := offset.getD 0
  if l < 1 || l > (MAX_PAGE_SIZE : Int) then
    .error ⟨422, "Input should be less than or equal to 100"⟩
  else if o < 0 then
    .error ⟨422, "Input should be greater than or equal to 0"⟩
  else
    let matching := matchingRecs s workbook
    let total := matching.length
    let items := ((sortByIdDesc matching).drop o.toNat).take l.toNat
    .ok (items.map uploadOutJson, total)

end Fastapi

namespace Django

/-- A DRF validation failure; `raise_exception=True` surfaces it as an HTTP
400 response. -/
structure DErr where
  status : Nat
  detail : String
deriving DecidableEq, Repr

/-- Raw create payload as JSON fields.  `rows`/`mapping` are `JSONField`s and
accept any JSON (the claims use only their length, so they are taken already
shaped); `row_count` appears here to model that a client may send it even
though the serializer declares it read-only. -/
structure RawIn where
  workbook : Option JVal := none
  rows : Option (List Row) := none
  mapping : Option Mapping := none
  row_count : Option Int := none

/-- Python `str.strip()`: drop whitespace from both ends. -/
def pyStrip (s : String) : String :=
  String.mk
    (((s.data.dropWhile Char.isWhitespace).reverse.dropWhile
        Char.isWhitespace).reverse)

/-- DRF `CharField(max_length=255)` (the `workbook` model field): required;
accepts strings and numerics (coerced via `str`), rejects other types;
trims whitespace; rejects blank input; enforces the max length on the
trimmed value. -/
def parseCharField255 : Option JVal → Except DErr String
  | none => .error ⟨400, "This field is required."⟩
  | some (.str s) =>
    if pyStrip s = "" then .error ⟨400, "This field may not be blank."⟩
    else if (pyStrip s).length > 255 then
      .error ⟨400, "Ensure this field has no more than 255 characters."⟩
    else .ok (pyStrip s)
  | some (.num n) =>
    -- numeric input is coerced with str(); its rendering is never blank
    -- and never longer than 255 characters for any JSON number in scope
    .ok (toString n)
  | some _ => .error ⟨400, "Not a valid string."⟩

/-- Attributes as they flow through the serializer: fields that may be
absent (partial update) are optional. -/
structure VAttrs where
  workbook : Option String := none
  rows : Option (List Row) := none
  mapping : Option Mapping := none
  row_count : Option Nat := none
deriving DecidableEq, Repr

/-- `UploadSerializer.validate` (serializers.py lines 11-16): if `rows` is in
the attributes, set `row_count` to its length; otherwise leave the
attributes unchanged. -/
def UploadSerializer_validate (attrs : VAttrs) : VAttrs :=
  match attrs.rows with
  | some rows => { attrs with row_count := some rows.length }
  | none => attrs

/-- Full deserialization for create: `id`, `row_count`, `created_at` are in
`read_only_fields`, so the client-supplied `row_count` is dropped before
field validation; `workbook` is a required `CharField(max_length=255)`;
`rows` and `mapping` are required `JSONField`s; finally
`UploadSerializer.validate` runs on the collected attributes. -/
def deserialize (raw : RawIn) : Except DErr VAttrs :=
  match parseCharField255 raw.workbook with
  | .error e => .error e
  | .ok w =>
    match raw.rows with
    | none => .error ⟨400, "This field is required."⟩
    | some rows =>
      match raw.mapping with
      | none => .error ⟨400, "This field is required."⟩
      | some mp =>
        .ok (UploadSerializer_validate ⟨some w, some rows, some mp, none⟩)

/-- `UploadCreateResponseSerializer` / `UploadListSerializer` fields:
`id`, `workbook`, `mapping`, `row_count`, `created_at` — no `rows`. -/
def lightweightJson (r : Rec) : List (String × Val) :=
  [("id", .nat r.id), ("workbook", .str r.workbook),
   ("mapping", .mapV r.mapping),
   ("row_count", .nat r.row_count), ("created_at", .nat r.created_at)]

/-- `UploadViewSet.create`: validate via the serializer (no row-count bound
exists anywhere on this path), persist, respond 201 with the
metadata-only body. -/
def create (s : Store) (raw : RawIn) (now : Nat) :
    Nat × List (String × Val) × Store :=
  match deserialize raw with
  | .error e => (e.status, [("detail", .str e.detail)], s)
  | .ok a =>
    let r : Rec :=
      ⟨s.nextId, (a.workbook.getD ""), (a.rows.getD []), (a.mapping.getD []),
       (a.row_count.getD 0), now⟩
    (201, lightweightJson r, ⟨s.recs ++ [r], s.nextId + 1⟩)

/-- `UploadViewSet.list` (views.py lines 63-99): optional workbook filter
(Python truthiness), total counted before slicing, `limit` parsed with
default 50 (`none` models both an absent and an unparsable parameter) and
clamped by `max(1, min(limit, 500))`, `offset` clamped by `max(0, offset)`,
page sliced from the id-descending queryset and serialized without `rows`. -/
def list (s : Store) (limitRaw : Option Int) (offsetRaw : Option Int)
    (workbook : Option String) : List (List (String × Val)) × Nat :=
  let matching := matchingRecs s workbook
  let total := matching.length
  let limit := max 1 (min (limitRaw.getD 50) 500)
  let offset := max 0 (offsetRaw.getD 0)
  let items := ((sortByIdDesc matching).drop offset.toNat).take limit.toNat
  (items.map lightweightJson, total)

end Django

namespace Chart

/-- Python `dict.get`: value of the first (only) entry with this key. -/
def dictGet (d : List (String × JVal)) (k : String) : Option JVal :=
  (d.find? (fun f => f.1 == k)).map (fun f => f.2)

/-- Python `d[k] = v`: update in place when the key exists (preserving its
position), append otherwise. -/
def dictSet (d : List (String × JVal)) (k : String) (v : JVal) :
    List (String × JVal) :=
  match d with
  | [] => [(k, v)]
  | f :: rest =>
    if f.1 = k then (k, v) :: rest else f :: dictSet rest k v

/-- Python `d.setdefault(k, v)`: insert at the end only when the key is
absent. -/
def setdefault (d : List (String × JVal)) (k : String) (v : JVal) :
    List (String × JVal) :=
  if (dictGet d k).isSome then d else d ++ [(k, v)]

/-- `columns = sorted({k for r in sample for k in r.keys()})` with
`sample = rows[:20]` (chart_service.py lines 43-45): the distinct keys of
the first 20 sample rows.  Python additionally sorts this list for the LLM
prompt; only membership is ever tested on it, so the sort order is not
modelled. -/
def sampleColumns (rows : List (List (String × JVal))) : List String :=
  ((rows.take 20).flatMap (fun r => r.map (fun f => f.1))).dedup

/-- Python `x in columns` for a JSON value against a list of string column
names: only an equal string matches (no cross-type equality is possible
against strings). -/
def inColumns (v : JVal) (cols : List String) : Bool :=
  match v with
  | .str s => cols.contains s
  | _ => false

def allowedChartTypes : List String := ["bar", "line", "number", "table"]

/-- The key-coercion step for `xKey`/`yKey` (chart_service.py lines
106-111): `spec.get(k)` is `None` both when the key is absent and when it is
JSON null, and in either case nothing is written; otherwise a value that is
not one of the column names is overwritten with null. -/
def coerceKey (spec : List (String × JVal)) (k : String) (cols : List String) :
    List (String × JVal) :=
  match dictGet spec k with
  | none => spec
  | some .null => spec
  | some v => if inColumns v cols then spec else dictSet spec k .null

/-- The validation section of `generate_chart_spec` (chart_service.py lines
97-117), applied to the JSON object parsed from the LLM response content and
to the `rows` argument of the call:
`chart_type = str(spec.get("type", "table"))` and a reassignment to
`"table"` when it is not allowed; `xKey`/`yKey` coerced against the sample
columns; `title`/`description` filled in via `setdefault`. -/
def generate_chart_spec_post (spec : List (String × JVal))
    (rows : List (List (String × JVal))) : List (String × JVal) :=
  let columns := sampleColumns rows
  let chart_type := pyStr ((dictGet spec "type").getD (.str "table"))
  let spec1 :=
    if allowedChartTypes.contains chart_type then spec
    else dictSet spec "type" (.str "table")
  let spec2 := coerceKey spec1 "xKey" columns
  let spec3 := coerceKey spec2 "yKey" columns
  let spec4 := setdefault spec3 "title" (.str "Chart")
  setdefault spec4 "description" (.str "")

end Chart

namespace Fastapi

/-- The three mutating operations of the FastAPI service, so that statements
can quantify over "any successful write". -/
inductive WriteOp where
  | createOp (p : UploadIn) (now : Nat)
  | putOp (uid : Nat) (p : UploadIn)
  | patchOp (uid : Nat) (u : UploadUpdate)

def applyWrite (s : Store) : WriteOp → Except HErr (Store × Rec)
  | .createOp p now => create_upload s p now
  | .putOp uid p => put_upload s uid p
  | .patchOp uid u => patch_upload s uid u

/-- Status-and-store view of a write: on error the store is unchanged (the
exception is raised before the commit). -/
def applyWriteRoute (s : Store) (op : WriteOp) : Nat × Store :=
  match applyWrite s op with
  | .ok (s', _) => (200, s')
  | .error e => (e.status, s)

/-- The rows the operation submits (patch may omit them). -/
def opRows : WriteOp → Option (List Row)
  | .createOp p _ => some p.rows
  | .putOp _ p => some p.rows
  | .patchOp _ u => u.rows

/-- The workbook value the validation gate will see: the submitted one for
create, and — provided the target record exists — the submitted
(respectively merged) one for put and patch. -/
def opMergedWorkbook (s : Store) : WriteOp → Option String
  | .createOp p _ => some p.workbook
  | .putOp uid p => (dbGet s uid).map (fun _ => p.workbook)
  | .patchOp uid u => (dbGet s uid).map (fun q => u.workbook.getD q.workbook)

/-- The workbook field values the claims call invalid for create and full
replace: absent, or anything but a non-empty string of at most 255
characters (JSON null and every non-string value are "not a string"). -/
def isBadRawWorkbook : Option JVal → Bool
  | none => true
  | some (.str s) => s == "" || s.length > 255
  | some _ => true

/-- The same for patch, where an absent or null workbook is not invalid but
"keep the existing value". -/
def isBadPatchWorkbook : Option JVal → Bool
  | none => false
  | some .null => false
  | some (.str s) => s == "" || s.length > 255
  | some _ => true

end Fastapi

/-! Concrete example inputs used by witnesses and counterexamples. -/

def exRows : List Row := [[("a", "1")], [("a", "2")]]

def exMapping : Mapping := [("a", some "colA")]

def exUploadIn : Fastapi.UploadIn := ⟨"Q1", exRows, exMapping⟩

/-- The record `create` produces from `exUploadIn` on an empty store at
time 0. -/
def exRec : Rec := ⟨1, "Q1", exRows, exMapping, 2, 0⟩

def exStore : Store := ⟨[exRec], 2⟩

/-- 10001 rows: one more than `MAX_ROWS`. -/
def bigRows : List Row := List.replicate 10001 []

/-! ## Helper lemmas -/

theorem findRec_append_new (l : List Rec) (r : Rec)
    (h : ∀ q ∈ l, q.id ≠ r.id) :
    (l ++ [r]).find? (fun q => q.id == r.id) = some r := by
  induction l with
  | nil => simp [List.find?]
  | cons a l ih =>
    have ha : (a.id == r.id) = false := by
      simp only [beq_eq_false_iff_ne, ne_eq]
      exact h a (by simp)
    simp only [List.cons_append, List.find?, ha]
    exact ih (fun q hq => h q (by simp [hq]))

theorem findRec_filter_ne (l : List Rec) (uid : Nat) :
    (l.filter (fun r => r.id != uid)).find? (fun r => r.id == uid) = none := by
  induction l with
  | nil => simp
  | cons a l ih =>
    by_cases ha : a.id = uid
    · simp [List.filter, ha, ih]
    · have : (a.id != uid) = true := by simp [ha]
      simp [List.filter, this, List.find?, ha, ih]

theorem findRec_map_update (l : List Rec) (uid : Nat) (q r' : Rec)
    (hq : l.find? (fun r => r.id == uid) = some q) (hid : r'.id = q.id) :
    (l.map (fun x => if x.id == uid then r' else x)).find?
      (fun r => r.id == uid) = some r' := by
  induction l with
  | nil => simp [List.find?] at hq
  | cons a l ih =>
    by_cases ha : a.id = uid
    · have hqa : a = q := by simpa [List.find?, ha] using hq
      have hr : (r'.id == uid) = true := by
        simp [hid, ← hqa, ha]
      simp [List.find?, ha, hr]
    · have ha' : (a.id == uid) = false := by simp [ha]
      have hq' : l.find? (fun r => r.id == uid) = some q := by
        simpa [List.find?, ha'] using hq
      simp only [List.map_cons]
      rw [show (if (a.id == uid) = true then r' else a) = a by simp [ha']]
      rw [List.find?_cons_of_neg _ (by simp [ha])]
      exact ih hq'

theorem mem_insertByIdDesc {a r : Rec} {l : List Rec} :
    a ∈ insertByIdDesc r l ↔ a = r ∨ a ∈ l := by
  induction l with
  | nil => simp [insertByIdDesc]
  | cons q l ih =>
    by_cases hq : q.id ≤ r.id
    · simp [insertByIdDesc, hq]
    · simp [insertByIdDesc, hq, ih]
      tauto

theorem mem_sortByIdDesc {a : Rec} {l : List Rec} :
    a ∈ sortByIdDesc l ↔ a ∈ l := by
  induction l with
  | nil => simp [sortByIdDesc]
  | cons r l ih => simp [sortByIdDesc, mem_insertByIdDesc, ih]

theorem mem_matchingRecs {s : Store} {w : Option String} {r : Rec}
    (h : r ∈ matchingRecs s w) : r ∈ s.recs := by
  cases w with
  | none => exact h
  | some wb =>
    by_cases hw : wb = ""
    · simp only [matchingRecs, if_pos hw] at h
      exact h
    · simp only [matchingRecs, if_neg hw] at h
      exact List.mem_of_mem_filter h

theorem lookup_rows_uploadOutJson (r : Rec) :
    List.lookup "rows" (Fastapi.uploadOutJson r) = none := rfl

theorem lookup_mapping_uploadOutJson (r : Rec) :
    List.lookup "mapping" (Fastapi.uploadOutJson r) = none := rfl

theorem lookup_rows_lightweightJson (r : Rec) :
    List.lookup "rows" (Django.lightweightJson r) = none := rfl

namespace Fastapi

theorem validate_payload_long {w : String} (h : w.length > 255)
    (rows : List Row) (mp : Mapping) :
    validate_payload w rows mp = .error ⟨422, "workbook too long (>255)"⟩ := by
  have hne : w ≠ "" := by
    intro he
    rw [he] at h
    simp at h
  unfold validate_payload MAX_WORKBOOK_LEN
  simp [hne, h]

theorem validate_payload_too_many_rows {w : String} {rows : List Row}
    (h1 : w ≠ "") (h2 : w.length ≤ 255) (h3 : rows.length > 10000)
    (mp : Mapping) :
    validate_payload w rows mp = .error ⟨413, "Too many rows (>10000)"⟩ := by
  unfold validate_payload MAX_WORKBOOK_LEN MAX_ROWS
  simp [h1, Nat.not_lt.mpr h2, h3]

end Fastapi

/-! ## Claim C1 -/

/-- C1, counterexample to the claim as stated.  The claim says `Get(id)` of a
created record "returns the full record including rows".  In `main.py`,
`get_upload` is serialized through `response_model=UploadOut`, whose fields
are only `id`, `workbook`, `row_count`, `created_at`: after creating a record
(workbook "Q1", two rows), the Get response succeeds (status 200) but its
body carries no `rows` field (nor `mapping`). -/
theorem c1_counterexample_get_omits_rows :
    (Fastapi.getRoute
        (Fastapi.createRoute Store.empty (some (.str "Q1")) exRows exMapping 0).2.2
        1).1 = 200
    ∧ List.lookup "rows"
        (Fastapi.getRoute
          (Fastapi.createRoute Store.empty (some (.str "Q1")) exRows exMapping 0).2.2
          1).2 = none := by
  constructor <;> rfl

/-- C1 (amended): for every valid input, `Create` followed by `Get` of the
created id succeeds and yields the stored record, whose `row_count` equals
`len(rows)` and whose `workbook`, `rows` and `mapping` are identical to the
created values; however the FastAPI response body of Get is the `UploadOut`
serialization, which omits `rows` and `mapping` (metadata only); `Get` of an
absent id returns 404 not-found. -/
theorem c1_create_then_get_roundtrip
    (s : Store) (p : Fastapi.UploadIn) (now : Nat) (s' : Store) (r : Rec)
    (uid : Nat)
    (hwf : s.wfb = true)
    (h : Fastapi.create_upload s p now = .ok (s', r))
    (hu : dbGet s' uid = none) :
    Fastapi.get_upload s' r.id = .ok r
    ∧ r.row_count = p.rows.length
    ∧ r.workbook = p.workbook ∧ r.rows = p.rows ∧ r.mapping = p.mapping
    ∧ List.lookup "rows" (Fastapi.uploadOutJson r) = none
    ∧ List.lookup "mapping" (Fastapi.uploadOutJson r) = none
    ∧ Fastapi.get_upload s' uid = .error ⟨404, "Not found"⟩ := by
  unfold Fastapi.create_upload at h
  cases hv : Fastapi.validate_payload p.workbook p.rows p.mapping with
  | error e => rw [hv] at h; simp at h
  | ok u =>
    rw [hv] at h
    simp only [Except.ok.injEq, Prod.mk.injEq] at h
    obtain ⟨hs', hr⟩ := h
    subst hs'
    subst hr
    have hbound : ∀ q ∈ s.recs, q.id ≠ s.nextId := by
      intro q hq
      have := (List.all_eq_true.mp hwf) q hq
      simp only [decide_eq_true_eq] at this
      omega
    refine ⟨?_, rfl, rfl, rfl, rfl, rfl, rfl, ?_⟩
    · unfold Fastapi.get_upload dbGet
      rw [findRec_append_new s.recs _ hbound]
    · unfold Fastapi.get_upload
      rw [hu]

/-- Witness for C1 at a concrete input: create `("Q1", two rows, one
mapping entry)` on the empty store, then Get id 1 (present) and id 7
(absent). -/
theorem c1_create_then_get_roundtrip_witness :
    Fastapi.get_upload exStore exRec.id = .ok exRec
    ∧ exRec.row_count = exUploadIn.rows.length
    ∧ exRec.workbook = exUploadIn.workbook ∧ exRec.rows = exUploadIn.rows
    ∧ exRec.mapping = exUploadIn.mapping
    ∧ List.lookup "rows" (Fastapi.uploadOutJson exRec) = none
    ∧ List.lookup "mapping" (Fastapi.uploadOutJson exRec) = none
    ∧ Fastapi.get_upload exStore 7 = .error ⟨404, "Not found"⟩ :=
  c1_create_then_get_roundtrip Store.empty exUploadIn 0 exStore exRec 7
    (by rfl) (by rfl) (by rfl)

/-! ## Claim C2 -/

theorem findRec_pred {l : List Rec} {p : Rec → Bool} {q : Rec}
    (hq : l.find? p = some q) : p q = true := by
  induction l with
  | nil => simp [List.find?] at hq
  | cons a l ih =>
    cases hp : p a with
    | true =>
      rw [List.find?_cons_of_pos _ hp] at hq
      cases hq
      exact hp
    | false =>
      rw [List.find?_cons_of_neg _ (by simp [hp])] at hq
      exact ih hq

theorem mem_map_update {l : List Rec} {uid : Nat} {q : Rec} (r' : Rec)
    (hq : l.find? (fun x => x.id == uid) = some q) :
    r' ∈ l.map (fun x => if x.id == uid then r' else x) := by
  have hmem := List.mem_of_find?_eq_some hq
  have hp : (q.id == uid) = true := findRec_pred hq
  have h2 := List.mem_map_of_mem (fun x => if x.id == uid then r' else x) hmem
  simpa [hp] using h2

/-- C2: after every successful write (create, replace, patch), the stored
record satisfies `row_count = len(rows)` and is in the store; on the Django
side the serializer's outcome is independent of any client-supplied
`row_count` (it is in `read_only_fields`, hence dropped before validation),
and `UploadSerializer.validate` always recomputes `row_count` from the
`rows` attribute. -/
theorem c2_row_count_recomputed
    (s : Store) (op : Fastapi.WriteOp) (s' : Store) (r : Rec)
    (raw : Django.RawIn) (c c' : Option Int) (a : Django.VAttrs)
    (rows : List Row)
    (h : Fastapi.applyWrite s op = .ok (s', r))
    (hd : Django.deserialize raw = .ok a)
    (hr : a.rows = some rows) :
    r.row_count = r.rows.length
    ∧ r ∈ s'.recs
    ∧ Django.deserialize { raw with row_count := c }
        = Django.deserialize { raw with row_count := c' }
    ∧ a.row_count = some rows.length := by
  refine ⟨?_, ?_, rfl, ?_⟩
  · cases op with
    | createOp p now =>
      simp only [Fastapi.applyWrite] at h
      unfold Fastapi.create_upload at h
      cases hv : Fastapi.validate_payload p.workbook p.rows p.mapping with
      | error e => rw [hv] at h; simp at h
      | ok u =>
        rw [hv] at h
        simp only [Except.ok.injEq, Prod.mk.injEq] at h
        obtain ⟨hs', hr'⟩ := h
        subst hr'
        rfl
    | putOp uid p =>
      simp only [Fastapi.applyWrite] at h
      unfold Fastapi.put_upload at h
      cases hg : dbGet s uid with
      | none => rw [hg] at h; simp at h
      | some q =>
        rw [hg] at h
        cases hv : Fastapi.validate_payload p.workbook p.rows p.mapping with
        | error e => rw [hv] at h; simp at h
        | ok u =>
          rw [hv] at h
          simp only [Except.ok.injEq, Prod.mk.injEq] at h
          obtain ⟨hs', hr'⟩ := h
          subst hr'
          rfl
    | patchOp uid u =>
      simp only [Fastapi.applyWrite] at h
      unfold Fastapi.patch_upload at h
      cases hg : dbGet s uid with
      | none => rw [hg] at h; simp at h
      | some q =>
        rw [hg] at h
        dsimp only at h
        cases hv : Fastapi.validate_payload (u.workbook.getD q.workbook)
            (u.rows.getD q.rows) (u.mapping.getD q.mapping) with
        | error e => rw [hv] at h; simp at h
        | ok uu =>
          rw [hv] at h
          simp only [Except.ok.injEq, Prod.mk.injEq] at h
          obtain ⟨hs', hr'⟩ := h
          subst hr'
          rfl
  · cases op with
    | createOp p now =>
      simp only [Fastapi.applyWrite] at h
      unfold Fastapi.create_upload at h
      cases hv : Fastapi.validate_payload p.workbook p.rows p.mapping with
      | error e => rw [hv] at h; simp at h
      | ok u =>
        rw [hv] at h
        simp only [Except.ok.injEq, Prod.mk.injEq] at h
        obtain ⟨hs', hr'⟩ := h
        subst hs'
        subst hr'
        simp
    | putOp uid p =>
      simp only [Fastapi.applyWrite] at h
      unfold Fastapi.put_upload at h
      cases hg : dbGet s uid with
      | none => rw [hg] at h; simp at h
      | some q =>
        rw [hg] at h
        cases hv : Fastapi.validate_payload p.workbook p.rows p.mapping with
        | error e => rw [hv] at h; simp at h
        | ok u =>
          rw [hv] at h
          simp only [Except.ok.injEq, Prod.mk.injEq] at h
          obtain ⟨hs', hr'⟩ := h
          subst hs'
          subst hr'
          exact mem_map_update _ hg
    | patchOp uid u =>
      simp only [Fastapi.applyWrite] at h
      unfold Fastapi.patch_upload at h
      cases hg : dbGet s uid with
      | none => rw [hg] at h; simp at h
      | some q =>
        rw [hg] at h
        dsimp only at h
        cases hv : Fastapi.validate_payload (u.workbook.getD q.workbook)
            (u.rows.getD q.rows) (u.mapping.getD q.mapping) with
        | error e => rw [hv] at h; simp at h
        | ok uu =>
          rw [hv] at h
          simp only [Except.ok.injEq, Prod.mk.injEq] at h
          obtain ⟨hs', hr'⟩ := h
          subst hs'
          subst hr'
          exact mem_map_update _ hg
  · unfold Django.deserialize at hd
    cases hw : Django.parseCharField255 raw.workbook with
    | error e => rw [hw] at hd; simp at hd
    | ok w =>
      rw [hw] at hd
      cases hrows : raw.rows with
      | none => rw [hrows] at hd; simp at hd
      | some rows0 =>
        rw [hrows] at hd
        cases hmp : raw.mapping with
        | none => rw [hmp] at hd; simp at hd
        | some mp =>
          rw [hmp] at hd
          simp only [Except.ok.injEq] at hd
          subst hd
          simp only [Django.UploadSerializer_validate] at hr ⊢
          simp at hr
          simp [hr]

/-- Witness for C2: a concrete successful create on the FastAPI side and a
concrete deserialization (with a client-supplied `row_count` of 999) on the
Django side. -/
theorem c2_row_count_recomputed_witness :
    exRec.row_count = exRec.rows.length
    ∧ exRec ∈ exStore.recs
    ∧ Django.deserialize
        { workbook := some (.str "Q1"), rows := some exRows,
          mapping := some exMapping, row_count := some 5 }
      = Django.deserialize
        { workbook := some (.str "Q1"), rows := some exRows,
          mapping := some exMapping, row_count := none }
    ∧ (Django.VAttrs.mk (some "Q1") (some exRows) (some exMapping)
        (some 2)).row_count = some exRows.length :=
  c2_row_count_recomputed Store.empty (.createOp exUploadIn 0) exStore exRec
    { workbook := some (.str "Q1"), rows := some exRows,
      mapping := some exMapping, row_count := some 999 }
    (some 5) none
    (Django.VAttrs.mk (some "Q1") (some exRows) (some exMapping) (some 2))
    exRows (by rfl) (by rfl) (by rfl)

/-! ## Claim C3 -/

theorem bigRows_length : bigRows.length = 10001 := by
  unfold bigRows
  exact List.length_replicate 10001 []

/-- C3, counterexample to the claim as stated.  The claim says every input
with more than 10,000 rows is rejected with a 413-class error and no record
is persisted.  The Django implementation's serializer
(`UploadSerializer`, serializers.py) has no row-count bound at all: a create
with 10,001 rows succeeds with status 201 and persists a record (the store
grows from 0 to 1 records). -/
theorem c3_counterexample_django_accepts_10001_rows :
    10000 < bigRows.length
    ∧ (Django.create Store.empty
        ⟨some (.str "Big"), some bigRows, some [], none⟩ 0).1 = 201
    ∧ ((Django.create Store.empty
        ⟨some (.str "Big"), some bigRows, some [], none⟩ 0).2.2).recs.length
        = 1 := by
  refine ⟨by rw [bigRows_length]; omega, rfl, rfl⟩

/-- C3 (amended): in the FastAPI implementation the claim holds — whenever
the workbook the validation gate sees is valid (non-empty, at most 255
characters) and the submitted rows exceed 10,000, create, replace and patch
(the latter two on an existing id) fail with the 413 payload-too-large
error and the store is unchanged.  The Django implementation enforces no
such bound (see the counterexample). -/
theorem c3_fastapi_rows_over_limit_rejected
    (s : Store) (op : Fastapi.WriteOp) (w : String) (rows : List Row)
    (hw : Fastapi.opMergedWorkbook s op = some w)
    (hw1 : w ≠ "") (hw2 : w.length ≤ 255)
    (hr : Fastapi.opRows op = some rows)
    (hn : rows.length > 10000) :
    Fastapi.applyWrite s op = .error ⟨413, "Too many rows (>10000)"⟩
    ∧ Fastapi.applyWriteRoute s op = (413, s) := by
  have hmain : Fastapi.applyWrite s op
      = .error ⟨413, "Too many rows (>10000)"⟩ := by
    cases op with
    | createOp p now =>
      simp only [Fastapi.opMergedWorkbook, Option.some.injEq] at hw
      simp only [Fastapi.opRows, Option.some.injEq] at hr
      subst hw
      subst hr
      simp only [Fastapi.applyWrite]
      unfold Fastapi.create_upload
      rw [Fastapi.validate_payload_too_many_rows hw1 hw2 hn]
    | putOp uid p =>
      simp only [Fastapi.opRows, Option.some.injEq] at hr
      subst hr
      simp only [Fastapi.applyWrite]
      unfold Fastapi.put_upload
      cases hg : dbGet s uid with
      | none => simp [Fastapi.opMergedWorkbook, hg] at hw
      | some q =>
        simp only [Fastapi.opMergedWorkbook, hg] at hw
        simp at hw
        subst hw
        dsimp only
        rw [Fastapi.validate_payload_too_many_rows hw1 hw2 hn]
    | patchOp uid u =>
      simp only [Fastapi.opRows] at hr
      simp only [Fastapi.applyWrite]
      unfold Fastapi.patch_upload
      cases hg : dbGet s uid with
      | none => simp [Fastapi.opMergedWorkbook, hg] at hw
      | some q =>
        simp only [Fastapi.opMergedWorkbook, hg] at hw
        simp at hw
        dsimp only
        rw [hw, hr]
        simp only [Option.getD_some]
        rw [Fastapi.validate_payload_too_many_rows hw1 hw2 hn]
  refine ⟨hmain, ?_⟩
  unfold Fastapi.applyWriteRoute
  rw [hmain]

/-- Witness for C3 at a concrete input: a create of 10,001 rows under
workbook "Big" on the empty store is rejected with 413 and leaves the store
empty. -/
theorem c3_fastapi_rows_over_limit_rejected_witness :
    Fastapi.applyWrite Store.empty (.createOp ⟨"Big", bigRows, []⟩ 0)
      = .error ⟨413, "Too many rows (>10000)"⟩
    ∧ Fastapi.applyWriteRoute Store.empty (.createOp ⟨"Big", bigRows, []⟩ 0)
      = (413, Store.empty) :=
  c3_fastapi_rows_over_limit_rejected Store.empty
    (.createOp ⟨"Big", bigRows, []⟩ 0) "Big" bigRows
    (by rfl) (by decide) (by decide) (by rfl)
    (by rw [bigRows_length]; omega)

/-! ## Claim C4 -/

theorem validate_payload_bad_workbook {ws : String}
    (hb : ws = "" ∨ ws.length > 255) (rows : List Row) (mp : Mapping) :
    ∃ d, Fastapi.validate_payload ws rows mp = .error ⟨422, d⟩ := by
  rcases hb with hb | hb
  · subst hb
    exact ⟨"workbook is required", rfl⟩
  · exact ⟨"workbook too long (>255)", Fastapi.validate_payload_long hb rows mp⟩

/-- C4: for every workbook field value that is absent, empty, not a string,
or longer than 255 characters, the FastAPI validation gate fails with a 422
invalid-argument classification before any storage side effect occurs, on
create, full replace, and patch alike (for patch the gate sees the merged
workbook, so the failing values are a provided empty/overlong/non-string
workbook); the store is unchanged in every case. -/
theorem c4_invalid_workbook_rejected
    (s : Store) (uid now : Nat) (q : Rec) (rows : List Row) (mp : Mapping)
    (prows : Option (List Row)) (pmp : Option Mapping)
    (rawW rawWP : Option JVal)
    (hbad : Fastapi.isBadRawWorkbook rawW = true)
    (hbadp : Fastapi.isBadPatchWorkbook rawWP = true)
    (hex : dbGet s uid = some q) :
    (Fastapi.createRoute s rawW rows mp now).1 = 422
    ∧ (Fastapi.createRoute s rawW rows mp now).2.2 = s
    ∧ (Fastapi.putRoute s uid rawW rows mp).1 = 422
    ∧ (Fastapi.putRoute s uid rawW rows mp).2 = s
    ∧ (Fastapi.patchRoute s uid rawWP prows pmp).1 = 422
    ∧ (Fastapi.patchRoute s uid rawWP prows pmp).2 = s := by
  have hcreate : (Fastapi.createRoute s rawW rows mp now).1 = 422
      ∧ (Fastapi.createRoute s rawW rows mp now).2.2 = s := by
    cases rawW with
    | none => exact ⟨rfl, rfl⟩
    | some v =>
      cases v with
      | str sb =>
        have hb : sb = "" ∨ sb.length > 255 := by
          simpa [Fastapi.isBadRawWorkbook] using hbad
        obtain ⟨d, hd⟩ := validate_payload_bad_workbook hb rows mp
        unfold Fastapi.createRoute Fastapi.createFromRaw
          Fastapi.parseWorkbookStr
        dsimp only
        unfold Fastapi.create_upload
        rw [hd]
        exact ⟨rfl, rfl⟩
      | null => exact ⟨rfl, rfl⟩
      | bool b => exact ⟨rfl, rfl⟩
      | num n => exact ⟨rfl, rfl⟩
      | arr xs => exact ⟨rfl, rfl⟩
      | obj fs => exact ⟨rfl, rfl⟩
  have hput : (Fastapi.putRoute s uid rawW rows mp).1 = 422
      ∧ (Fastapi.putRoute s uid rawW rows mp).2 = s := by
    cases rawW with
    | none => exact ⟨rfl, rfl⟩
    | some v =>
      cases v with
      | str sb =>
        have hb : sb = "" ∨ sb.length > 255 := by
          simpa [Fastapi.isBadRawWorkbook] using hbad
        obtain ⟨d, hd⟩ := validate_payload_bad_workbook hb rows mp
        unfold Fastapi.putRoute Fastapi.putFromRaw Fastapi.parseWorkbookStr
        dsimp only
        unfold Fastapi.put_upload
        rw [hex]
        dsimp only
        rw [hd]
        exact ⟨rfl, rfl⟩
      | null => exact ⟨rfl, rfl⟩
      | bool b => exact ⟨rfl, rfl⟩
      | num n => exact ⟨rfl, rfl⟩
      | arr xs => exact ⟨rfl, rfl⟩
      | obj fs => exact ⟨rfl, rfl⟩
  have hpatch : (Fastapi.patchRoute s uid rawWP prows pmp).1 = 422
      ∧ (Fastapi.patchRoute s uid rawWP prows pmp).2 = s := by
    cases rawWP with
    | none => simp [Fastapi.isBadPatchWorkbook] at hbadp
    | some v =>
      cases v with
      | null => simp [Fastapi.isBadPatchWorkbook] at hbadp
      | str sb =>
        have hb : sb = "" ∨ sb.length > 255 := by
          simpa [Fastapi.isBadPatchWorkbook] using hbadp
        obtain ⟨d, hd⟩ :=
          validate_payload_bad_workbook hb (prows.getD q.rows)
            (pmp.getD q.mapping)
        unfold Fastapi.patchRoute Fastapi.patchFromRaw
          Fastapi.parsePatchWorkbook
        dsimp only
        unfold Fastapi.patch_upload
        rw [hex]
        dsimp only
        rw [Option.getD_some, hd]
        exact ⟨rfl, rfl⟩
      | bool b => exact ⟨rfl, rfl⟩
      | num n => exact ⟨rfl, rfl⟩
      | arr xs => exact ⟨rfl, rfl⟩
      | obj fs => exact ⟨rfl, rfl⟩
  exact ⟨hcreate.1, hcreate.2, hput.1, hput.2, hpatch.1, hpatch.2⟩

/-- Witness for C4 at a concrete input: an absent workbook on create/put and
a numeric workbook on patch, against the one-record store. -/
theorem c4_invalid_workbook_rejected_witness :
    (Fastapi.createRoute exStore none [] [] 0).1 = 422
    ∧ (Fastapi.createRoute exStore none [] [] 0).2.2 = exStore
    ∧ (Fastapi.putRoute exStore 1 none [] []).1 = 422
    ∧ (Fastapi.putRoute exStore 1 none [] []).2 = exStore
    ∧ (Fastapi.patchRoute exStore 1 (some (.num 3)) none none).1 = 422
    ∧ (Fastapi.patchRoute exStore 1 (some (.num 3)) none none).2 = exStore :=
  c4_invalid_workbook_rejected exStore 1 0 exRec [] [] none none
    none (some (.num 3)) (by rfl) (by rfl) (by rfl)

/-! ## Claim C5 -/

/-- C5: for every store and every filter/limit/offset combination, a
successful List response reports as its total (the `X-Total-Count` header)
exactly the number of records matching the workbook filter — independent of
limit and offset, which do not occur in that count — and every returned item
is the rows-free serialization of a stored record (`UploadOut` in the
FastAPI service, `UploadListSerializer` in the Django service): no item
carries a `rows` field. -/
theorem c5_list_lightweight_and_total
    (s : Store) (limit offset lr odj : Option Int) (w : Option String)
    (page : List (List (String × Val))) (total : Nat)
    (item ditem : List (String × Val))
    (h : Fastapi.list_uploads s limit offset w = .ok (page, total))
    (hi : item ∈ page)
    (hd : ditem ∈ (Django.list s lr odj w).1) :
    total = (matchingRecs s w).length
    ∧ List.lookup "rows" item = none
    ∧ (∃ r ∈ s.recs, item = Fastapi.uploadOutJson r)
    ∧ (Django.list s lr odj w).2 = (matchingRecs s w).length
    ∧ List.lookup "rows" ditem = none := by
  unfold Fastapi.list_uploads at h
  dsimp only at h
  split at h
  · simp at h
  · split at h
    · simp at h
    · simp only [Except.ok.injEq, Prod.mk.injEq] at h
      obtain ⟨hpage, htotal⟩ := h
      subst hpage
      subst htotal
      obtain ⟨r, hrmem, hritem⟩ := List.mem_map.mp hi
      have hrrecs : r ∈ s.recs := by
        have h1 := List.mem_of_mem_take hrmem
        have h2 := List.mem_of_mem_drop h1
        exact mem_matchingRecs (mem_sortByIdDesc.mp h2)
      refine ⟨rfl, ?_, ⟨r, hrrecs, hritem.symm⟩, rfl, ?_⟩
      · rw [← hritem]
        exact lookup_rows_uploadOutJson r
      · simp only [Django.list] at hd
        obtain ⟨rd, hrdmem, hrditem⟩ := List.mem_map.mp hd
        rw [← hrditem]
        exact lookup_rows_lightweightJson rd

/-- Witness for C5 at a concrete input: the one-record store listed without
any filter or paging parameters, in both implementations. -/
theorem c5_list_lightweight_and_total_witness :
    1 = (matchingRecs exStore none).length
    ∧ List.lookup "rows" (Fastapi.uploadOutJson exRec) = none
    ∧ (∃ r ∈ exStore.recs, Fastapi.uploadOutJson exRec
        = Fastapi.uploadOutJson r)
    ∧ (Django.list exStore none none none).2 = (matchingRecs exStore none).length
    ∧ List.lookup "rows" (Django.lightweightJson exRec) = none :=
  c5_list_lightweight_and_total exStore none none none none none
    [Fastapi.uploadOutJson exRec] 1
    (Fastapi.uploadOutJson exRec) (Django.lightweightJson exRec)
    (by rfl) (by simp) (by decide)

/-! ## Claim C6 -/

/-- C6, counterexample to the claim as stated.  The claim says List clamps
out-of-range limits rather than failing.  In the FastAPI implementation
`limit` is declared `Query(50, ge=1, le=MAX_PAGE_SIZE)`, so a request with
`limit=101` is rejected with a 422 validation error instead of being
clamped. -/
theorem c6_counterexample_fastapi_limit_101_fails :
    Fastapi.list_uploads Store.empty (some 101) none none
      = .error ⟨422, "Input should be less than or equal to 100"⟩ := rfl

/-- C6 (amended): the Django implementation clamps the limit — the
effective limit is `max(1, min(limit, 500))` (50 when the parameter is
omitted or unparsable), never exceeds 500, and bounds the page length — and
accepts any requested value; the FastAPI implementation instead serves at
most `limit` records for limits within its declared range 1..100 (default
50) and rejects limits above 100 with a 422 validation error rather than
clamping. -/
theorem c6_limit_clamped_or_validated
    (s : Store) (lr odj : Option Int) (w : Option String)
    (limit offset limit2 : Option Int)
    (hl1 : 1 ≤ limit.getD 50) (hl2 : limit.getD 50 ≤ 100)
    (ho : 0 ≤ offset.getD 0)
    (h2 : 100 < limit2.getD 50) :
    (Django.list s lr odj w).1.length ≤ (max 1 (min (lr.getD 50) 500)).toNat
    ∧ 1 ≤ max 1 (min (lr.getD 50) 500)
    ∧ max 1 (min (lr.getD 50) 500) ≤ 500
    ∧ (Django.list s none odj w).1.length ≤ 50
    ∧ (∃ page total, Fastapi.list_uploads s limit offset w = .ok (page, total)
        ∧ page.length ≤ (limit.getD 50).toNat)
    ∧ Fastapi.list_uploads s limit2 offset w
        = .error ⟨422, "Input should be less than or equal to 100"⟩ := by
  have hlen : ∀ (lr' : Option Int),
      (Django.list s lr' odj w).1.length
        ≤ (max 1 (min (lr'.getD 50) 500)).toNat := by
    intro lr'
    simp only [Django.list]
    rw [List.length_map]
    exact List.length_take_le _ _
  refine ⟨hlen lr, le_max_left _ _, ?_, ?_, ?_, ?_⟩
  · have hmin : min (lr.getD 50) 500 ≤ 500 := min_le_right _ _
    omega
  · have h50 : (max 1 (min ((none : Option Int).getD 50) 500)).toNat = 50 := by
      decide
    calc (Django.list s none odj w).1.length
        ≤ (max 1 (min ((none : Option Int).getD 50) 500)).toNat := hlen none
      _ = 50 := h50
  · have hcond1 : (decide (limit.getD 50 < 1)
        || decide (limit.getD 50 > (Fastapi.MAX_PAGE_SIZE : Int))) = false := by
      simp only [Fastapi.MAX_PAGE_SIZE]
      simp only [Bool.or_eq_false_iff, decide_eq_false_iff_not]
      omega
    refine ⟨(((sortByIdDesc (matchingRecs s w)).drop
        (offset.getD 0).toNat).take (limit.getD 50).toNat).map
        Fastapi.uploadOutJson,
      (matchingRecs s w).length, ?_, ?_⟩
    · unfold Fastapi.list_uploads
      dsimp only
      rw [hcond1]
      simp only [Bool.false_eq_true, if_false]
      rw [if_neg (by omega : ¬ offset.getD 0 < 0)]
    · rw [List.length_map]
      exact List.length_take_le _ _
  · have hcond1 : (decide (limit2.getD 50 < 1)
        || decide (limit2.getD 50 > (Fastapi.MAX_PAGE_SIZE : Int))) = true := by
      simp only [Fastapi.MAX_PAGE_SIZE]
      simp only [Bool.or_eq_true, decide_eq_true_eq]
      omega
    unfold Fastapi.list_uploads
    dsimp only
    rw [hcond1]
    simp

/-- Witness for C6 at concrete inputs: Django with requested limit 1000
(clamped to 500), FastAPI with in-range limit 7 and out-of-range limit
101. -/
theorem c6_limit_clamped_or_validated_witness :
    (Django.list exStore (some 1000) none none).1.length
      ≤ (max 1 (min ((some (1000 : Int)).getD 50) 500)).toNat
    ∧ 1 ≤ max 1 (min ((some (1000 : Int)).getD 50) 500)
    ∧ max 1 (min ((some (1000 : Int)).getD 50) 500) ≤ 500
    ∧ (Django.list exStore none none none).1.length ≤ 50
    ∧ (∃ page total,
        Fastapi.list_uploads exStore (some 7) (some 0) none
          = .ok (page, total)
        ∧ page.length ≤ ((some (7 : Int)).getD 50).toNat)
    ∧ Fastapi.list_uploads exStore (some 101) (some 0) none
        = .error ⟨422, "Input should be less than or equal to 100"⟩ :=
  c6_limit_clamped_or_validated exStore (some 1000) none none
    (some 7) (some 0) (some 101)
    (by decide) (by decide) (by decide) (by decide)

/-! ## Claim C7 -/

/-- C7: patching an existing record with only the `workbook` field changes
only `workbook`: the stored `rows`, `mapping`, `row_count` (given the store
invariant `row_count = len(rows)`, which every reachable record satisfies),
`created_at` and `id` are unchanged; the merged result passes
`validate_payload` (re-validation), and the updated record is what the
store then holds under that id. -/
theorem c7_patch_workbook_only_frame
    (s : Store) (uid : Nat) (q : Rec) (w : String) (s' : Store) (r : Rec)
    (hq : dbGet s uid = some q)
    (hinv : q.row_count = q.rows.length)
    (h : Fastapi.patch_upload s uid ⟨some w, none, none⟩ = .ok (s', r)) :
    r.workbook = w ∧ r.rows = q.rows ∧ r.mapping = q.mapping
    ∧ r.row_count = q.row_count ∧ r.created_at = q.created_at ∧ r.id = q.id
    ∧ Fastapi.validate_payload w q.rows q.mapping = .ok ()
    ∧ dbGet s' uid = some r ∧ s'.recs.length = s.recs.length := by
  unfold Fastapi.patch_upload at h
  rw [hq] at h
  dsimp only at h
  simp only [Option.getD_some, Option.getD_none] at h
  cases hv : Fastapi.validate_payload w q.rows q.mapping with
  | error e => rw [hv] at h; simp at h
  | ok u =>
    rw [hv] at h
    simp only [Except.ok.injEq, Prod.mk.injEq] at h
    obtain ⟨hs', hr⟩ := h
    subst hs'
    subst hr
    refine ⟨rfl, rfl, rfl, by simpa using hinv.symm, rfl, rfl, ?_, ?_, ?_⟩
    · cases u
      rfl
    · unfold dbGet at hq ⊢
      exact findRec_map_update s.recs uid q _ hq rfl
    · simp
/-- Witness for C7 at a concrete input: patch the stored record (id 1) with
only `workbook := "Q2"`. -/
theorem c7_patch_workbook_only_frame_witness :
    (Rec.mk 1 "Q2" exRows exMapping 2 0).workbook = "Q2"
    ∧ (Rec.mk 1 "Q2" exRows exMapping 2 0).rows = exRec.rows
    ∧ (Rec.mk 1 "Q2" exRows exMapping 2 0).mapping = exRec.mapping
    ∧ (Rec.mk 1 "Q2" exRows exMapping 2 0).row_count = exRec.row_count
    ∧ (Rec.mk 1 "Q2" exRows exMapping 2 0).created_at = exRec.created_at
    ∧ (Rec.mk 1 "Q2" exRows exMapping 2 0).id = exRec.id
    ∧ Fastapi.validate_payload "Q2" exRec.rows exRec.mapping = .ok ()
    ∧ dbGet (Store.mk [Rec.mk 1 "Q2" exRows exMapping 2 0] 2) 1
        = some (Rec.mk 1 "Q2" exRows exMapping 2 0)
    ∧ (Store.mk [Rec.mk 1 "Q2" exRows exMapping 2 0] 2).recs.length
        = exStore.recs.length :=
  c7_patch_workbook_only_frame exStore 1 exRec "Q2"
    (Store.mk [Rec.mk 1 "Q2" exRows exMapping 2 0] 2)
    (Rec.mk 1 "Q2" exRows exMapping 2 0)
    (by rfl) (by rfl) (by rfl)

/-! ## Claim C8 -/

/-- C8: deleting an existing record succeeds and removes it, so that a
subsequent Get of the same id returns 404 not-found, and a second Delete of
the same id also returns 404 not-found rather than success. -/
theorem c8_delete_then_get_and_delete_not_found
    (s : Store) (uid : Nat) (q : Rec)
    (hq : dbGet s uid = some q) :
    ∃ s', Fastapi.delete_upload s uid = .ok s'
      ∧ Fastapi.get_upload s' uid = .error ⟨404, "Not found"⟩
      ∧ Fastapi.delete_upload s' uid = .error ⟨404, "Not found"⟩ := by
  refine ⟨⟨s.recs.filter (fun r => r.id != uid), s.nextId⟩, ?_, ?_, ?_⟩
  · unfold Fastapi.delete_upload
    rw [hq]
  · unfold Fastapi.get_upload dbGet
    dsimp only
    rw [findRec_filter_ne]
  · unfold Fastapi.delete_upload dbGet
    dsimp only
    rw [findRec_filter_ne]

/-- Witness for C8 at a concrete input: delete the stored record with id 1,
then Get and Delete it again. -/
theorem c8_delete_then_get_and_delete_not_found_witness :
    ∃ s', Fastapi.delete_upload exStore 1 = .ok s'
      ∧ Fastapi.get_upload s' 1 = .error ⟨404, "Not found"⟩
      ∧ Fastapi.delete_upload s' 1 = .error ⟨404, "Not found"⟩ :=
  c8_delete_then_get_and_delete_not_found exStore 1 exRec (by rfl)

/-! ## Claim C9 -/

/-- C9, counterexample to the claim as stated.  The claim says the create
endpoint responds with status 201.  The FastAPI route
`@app.post("/api/uploads", response_model=UploadOut)` sets no
`status_code`, so a valid create responds with FastAPI's default success
status 200, not 201. -/
theorem c9_counterexample_fastapi_create_status_not_201 :
    (Fastapi.createRoute Store.empty (some (.str "Q1")) exRows exMapping 0).1
      ≠ 201 := by decide

/-- C9 (amended): a valid create responds with a metadata-only body without
the `rows` payload in both implementations, but the status and exact fields
differ from the claim: the FastAPI service responds 200 with exactly
`id, workbook, row_count, created_at`; the Django service responds 201 with
`id, workbook, mapping, row_count, created_at` (mapping included, rows
omitted). -/
theorem c9_create_response_shape
    (s sd : Store) (p : Fastapi.UploadIn) (now nowd : Nat) (s' : Store)
    (r : Rec) (raw : Django.RawIn) (a : Django.VAttrs)
    (hc : Fastapi.create_upload s p now = .ok (s', r))
    (hd : Django.deserialize raw = .ok a) :
    (Fastapi.createRoute s (some (.str p.workbook)) p.rows p.mapping now).1
      = 200
    ∧ (Fastapi.createRoute s (some (.str p.workbook)) p.rows p.mapping now).2.1
      = Fastapi.uploadOutJson r
    ∧ (Fastapi.uploadOutJson r).map Prod.fst
      = ["id", "workbook", "row_count", "created_at"]
    ∧ List.lookup "rows" (Fastapi.uploadOutJson r) = none
    ∧ (Django.create sd raw nowd).1 = 201
    ∧ List.lookup "rows" ((Django.create sd raw nowd).2.1) = none
    ∧ ((Django.create sd raw nowd).2.1).map Prod.fst
      = ["id", "workbook", "mapping", "row_count", "created_at"] := by
  have hroute : Fastapi.createRoute s (some (.str p.workbook)) p.rows
      p.mapping now = (200, Fastapi.uploadOutJson r, s') := by
    unfold Fastapi.createRoute Fastapi.createFromRaw Fastapi.parseWorkbookStr
    dsimp only
    rw [show (⟨p.workbook, p.rows, p.mapping⟩ : Fastapi.UploadIn) = p from rfl]
    rw [hc]
  have hdj : ∃ rd sd', Django.create sd raw nowd
      = (201, Django.lightweightJson rd, sd') := by
    unfold Django.create
    rw [hd]
    exact ⟨_, _, rfl⟩
  obtain ⟨rd, sd', hdj⟩ := hdj
  rw [hroute, hdj]
  exact ⟨rfl, rfl, rfl, lookup_rows_uploadOutJson r, rfl,
    lookup_rows_lightweightJson rd, rfl⟩

/-- Witness for C9 at a concrete input: create `("Q1", two rows)` on both
sides. -/
theorem c9_create_response_shape_witness :
    (Fastapi.createRoute Store.empty (some (.str exUploadIn.workbook))
        exUploadIn.rows exUploadIn.mapping 0).1 = 200
    ∧ (Fastapi.createRoute Store.empty (some (.str exUploadIn.workbook))
        exUploadIn.rows exUploadIn.mapping 0).2.1
      = Fastapi.uploadOutJson exRec
    ∧ (Fastapi.uploadOutJson exRec).map Prod.fst
      = ["id", "workbook", "row_count", "created_at"]
    ∧ List.lookup "rows" (Fastapi.uploadOutJson exRec) = none
    ∧ (Django.create Store.empty
        ⟨some (.str "Q1"), some exRows, some exMapping, none⟩ 0).1 = 201
    ∧ List.lookup "rows" ((Django.create Store.empty
        ⟨some (.str "Q1"), some exRows, some exMapping, none⟩ 0).2.1) = none
    ∧ ((Django.create Store.empty
        ⟨some (.str "Q1"), some exRows, some exMapping, none⟩ 0).2.1).map
        Prod.fst
      = ["id", "workbook", "mapping", "row_count", "created_at"] :=
  c9_create_response_shape Store.empty Store.empty exUploadIn 0 0 exStore
    exRec ⟨some (.str "Q1"), some exRows, some exMapping, none⟩
    ⟨some "Q1", some exRows, some exMapping, some 2⟩
    (by rfl) (by rfl)

/-! ## Claim C10 -/

namespace Chart

theorem dictGet_append (d e : List (String × JVal)) (k : String) :
    dictGet (d ++ e) k
      = match dictGet d k with
        | some v => some v
        | none => dictGet e k := by
  induction d with
  | nil => simp [dictGet]
  | cons f rest ih =>
    by_cases hf : f.1 = k
    · simp [dictGet, List.find?, hf]
    · have hf' : (f.1 == k) = false := by simp [hf]
      simp only [dictGet, List.cons_append, List.find?, hf'] at ih ⊢
      exact ih

theorem dictGet_dictSet_self (d : List (String × JVal)) (k : String)
    (v : JVal) : dictGet (dictSet d k v) k = some v := by
  induction d with
  | nil => simp [dictSet, dictGet, List.find?]
  | cons f rest ih =>
    by_cases hf : f.1 = k
    · simp [dictSet, hf, dictGet, List.find?]
    · have hf' : (f.1 == k) = false := by simp [hf]
      simp only [dictSet, if_neg hf, dictGet, List.find?, hf'] at ih ⊢
      exact ih

theorem dictGet_dictSet_ne (d : List (String × JVal)) {k k' : String}
    (v : JVal) (hne : k' ≠ k) :
    dictGet (dictSet d k v) k' = dictGet d k' := by
  have hkk' : ¬ k = k' := fun h => hne h.symm
  have hbeq : (k == k') = false := by simp [hkk']
  induction d with
  | nil => simp [dictSet, dictGet, List.find?, hbeq]
  | cons f rest ih =>
    by_cases hf : f.1 = k
    · have hfk : (f.1 == k') = false := by
        rw [hf]
        exact hbeq
      simp [dictSet, hf, dictGet, List.find?, hbeq, hfk]
    · by_cases hf2 : f.1 = k'
      · have hfk : (f.1 == k') = true := by simp [hf2]
        simp [dictSet, if_neg hf, dictGet, List.find?, hfk]
      · have hf2' : (f.1 == k') = false := by simp [hf2]
        simp only [dictSet, if_neg hf, dictGet, List.find?, hf2'] at ih ⊢
        exact ih

theorem dictGet_setdefault_ne (d : List (String × JVal)) {k k' : String}
    (v : JVal) (hne : k' ≠ k) :
    dictGet (setdefault d k v) k' = dictGet d k' := by
  unfold setdefault
  by_cases h : (dictGet d k).isSome
  · simp [h]
  · simp only [h, Bool.false_eq_true, if_false]
    rw [dictGet_append]
    cases hd : dictGet d k' with
    | some w => rfl
    | none =>
      have hkk' : ¬ k = k' := fun h2 => hne h2.symm
      have hbeq : (k == k') = false := by simp [hkk']
      simp [dictGet, List.find?, hbeq]

theorem dictGet_setdefault_self (d : List (String × JVal)) (k : String)
    (v : JVal) : (dictGet (setdefault d k v) k).isSome = true := by
  unfold setdefault
  by_cases h : (dictGet d k).isSome
  · simp [h]
  · simp only [h, Bool.false_eq_true, if_false]
    rw [dictGet_append]
    have hnone : dictGet d k = none := by
      cases hd : dictGet d k with
      | none => rfl
      | some w => rw [hd] at h; simp at h
    rw [hnone]
    simp [dictGet, List.find?]

theorem dictGet_coerceKey_ne (d : List (String × JVal)) {k k' : String}
    (cols : List String) (hne : k' ≠ k) :
    dictGet (coerceKey d k cols) k' = dictGet d k' := by
  unfold coerceKey
  cases hv : dictGet d k with
  | none => rfl
  | some v =>
    cases v with
    | null => rfl
    | str s =>
      by_cases hc : inColumns (.str s) cols
      · simp [hc]
      · simp only [hc, Bool.false_eq_true, if_false]
        exact dictGet_dictSet_ne d _ hne
    | bool b => exact dictGet_dictSet_ne d _ hne
    | num n => exact dictGet_dictSet_ne d _ hne
    | arr xs => exact dictGet_dictSet_ne d _ hne
    | obj fs => exact dictGet_dictSet_ne d _ hne

theorem coerceKey_result (d : List (String × JVal)) (k : String)
    (cols : List String) :
    dictGet (coerceKey d k cols) k = none
    ∨ dictGet (coerceKey d k cols) k = some .null
    ∨ ∃ sx, dictGet (coerceKey d k cols) k = some (.str sx)
        ∧ cols.contains sx = true := by
  unfold coerceKey
  cases hv : dictGet d k with
  | none => exact Or.inl hv
  | some v =>
    cases v with
    | null => exact Or.inr (Or.inl hv)
    | str sx =>
      by_cases hc : inColumns (.str sx) cols
      · refine Or.inr (Or.inr ⟨sx, ?_, ?_⟩)
        · simpa [hc] using hv
        · simpa [inColumns] using hc
      · simp only [hc, Bool.false_eq_true, if_false]
        exact Or.inr (Or.inl (dictGet_dictSet_self d k .null))
    | bool b => exact Or.inr (Or.inl (dictGet_dictSet_self d k .null))
    | num n => exact Or.inr (Or.inl (dictGet_dictSet_self d k .null))
    | arr xs => exact Or.inr (Or.inl (dictGet_dictSet_self d k .null))
    | obj fs => exact Or.inr (Or.inl (dictGet_dictSet_self d k .null))

end Chart

/-- C10, counterexample to the claim as stated.  The claim says the returned
dict's `'type'` is always one of bar, line, number, table.  When the parsed
LLM object has no `"type"` key at all, `str(spec.get("type", "table"))` is
`"table"`, which passes the allow-list check, so nothing is assigned: the
returned dict still has no `"type"` key (here: input `{"xKey": "z"}` with one
sample row having column "a"). -/
theorem c10_counterexample_missing_type_stays_missing :
    Chart.dictGet
      (Chart.generate_chart_spec_post [("xKey", .str "z")]
        [[("a", .str "1")]]) "type" = none := rfl

/-- C10 (amended): for every parsed LLM JSON object, the result of the
post-processing section of `generate_chart_spec` satisfies: if a `"type"`
key is present its value renders (via Python `str`) to one of bar, line,
number, table (any other present value has been coerced to `"table"`; an
absent key stays absent); `"xKey"` and `"yKey"` are each absent, null, or a
column name occurring in the first 20 sample rows (other values are
replaced by null); and `"title"` and `"description"` keys are always
present. -/
theorem c10_chart_spec_post_validated
    (spec : List (String × JVal)) (rows : List (List (String × JVal)))
    (tv : JVal)
    (ht : Chart.dictGet (Chart.generate_chart_spec_post spec rows) "type"
        = some tv) :
    Chart.allowedChartTypes.contains (pyStr tv) = true
    ∧ (Chart.dictGet (Chart.generate_chart_spec_post spec rows) "xKey" = none
       ∨ Chart.dictGet (Chart.generate_chart_spec_post spec rows) "xKey"
          = some .null
       ∨ ∃ sx, Chart.dictGet (Chart.generate_chart_spec_post spec rows) "xKey"
            = some (.str sx)
          ∧ (Chart.sampleColumns rows).contains sx = true)
    ∧ (Chart.dictGet (Chart.generate_chart_spec_post spec rows) "yKey" = none
       ∨ Chart.dictGet (Chart.generate_chart_spec_post spec rows) "yKey"
          = some .null
       ∨ ∃ sy, Chart.dictGet (Chart.generate_chart_spec_post spec rows) "yKey"
            = some (.str sy)
          ∧ (Chart.sampleColumns rows).contains sy = true)
    ∧ (Chart.dictGet (Chart.generate_chart_spec_post spec rows)
        "title").isSome = true
    ∧ (Chart.dictGet (Chart.generate_chart_spec_post spec rows)
        "description").isSome = true := by
  unfold Chart.generate_chart_spec_post at ht ⊢
  dsimp only at ht ⊢
  refine ⟨?_, ?_, ?_, ?_, ?_⟩
  · rw [Chart.dictGet_setdefault_ne _ _ (by decide),
      Chart.dictGet_setdefault_ne _ _ (by decide),
      Chart.dictGet_coerceKey_ne _ _ (by decide),
      Chart.dictGet_coerceKey_ne _ _ (by decide)] at ht
    by_cases hc : Chart.allowedChartTypes.contains
        (pyStr ((Chart.dictGet spec "type").getD (.str "table"))) = true
    · rw [if_pos hc] at ht
      rw [ht] at hc
      simpa using hc
    · rw [if_neg hc] at ht
      rw [Chart.dictGet_dictSet_self] at ht
      have htv : tv = .str "table" := by
        simpa using ht.symm
      subst htv
      decide
  · rw [Chart.dictGet_setdefault_ne _ _ (by decide),
      Chart.dictGet_setdefault_ne _ _ (by decide),
      Chart.dictGet_coerceKey_ne _ _ (by decide)]
    exact Chart.coerceKey_result _ "xKey" _
  · rw [Chart.dictGet_setdefault_ne _ _ (by decide),
      Chart.dictGet_setdefault_ne _ _ (by decide)]
    exact Chart.coerceKey_result _ "yKey" _
  · rw [Chart.dictGet_setdefault_ne _ _ (by decide)]
    exact Chart.dictGet_setdefault_self _ "title" _
  · exact Chart.dictGet_setdefault_self _ "description" _

/-- Witness for C10 at a concrete input: the parsed object
`{"type": "bar", "xKey": 3, "yKey": "a"}` against one sample row with
column "a" (the numeric xKey is coerced to null, yKey "a" is kept). -/
theorem c10_chart_spec_post_validated_witness :
    Chart.allowedChartTypes.contains (pyStr (.str "bar")) = true
    ∧ (Chart.dictGet (Chart.generate_chart_spec_post
          [("type", .str "bar"), ("xKey", .num 3), ("yKey", .str "a")]
          [[("a", .str "1")]]) "xKey" = none
       ∨ Chart.dictGet (Chart.generate_chart_spec_post
          [("type", .str "bar"), ("xKey", .num 3), ("yKey", .str "a")]
          [[("a", .str "1")]]) "xKey" = some .null
       ∨ ∃ sx, Chart.dictGet (Chart.generate_chart_spec_post
            [("type", .str "bar"), ("xKey", .num 3), ("yKey", .str "a")]
            [[("a", .str "1")]]) "xKey" = some (.str sx)
          ∧ (Chart.sampleColumns [[("a", .str "1")]]).contains sx = true)
    ∧ (Chart.dictGet (Chart.generate_chart_spec_post
          [("type", .str "bar"), ("xKey", .num 3), ("yKey", .str "a")]
          [[("a", .str "1")]]) "yKey" = none
       ∨ Chart.dictGet (Chart.generate_chart_spec_post
          [("type", .str "bar"), ("xKey", .num 3), ("yKey", .str "a")]
          [[("a", .str "1")]]) "yKey" = some .null
       ∨ ∃ sy, Chart.dictGet (Chart.generate_chart_spec_post
            [("type", .str "bar"), ("xKey", .num 3), ("yKey", .str "a")]
            [[("a", .str "1")]]) "yKey" = some (.str sy)
          ∧ (Chart.sampleColumns [[("a", .str "1")]]).contains sy = true)
    ∧ (Chart.dictGet (Chart.generate_chart_spec_post
          [("type", .str "bar"), ("xKey", .num 3), ("yKey", .str "a")]
          [[("a", .str "1")]]) "title").isSome = true
    ∧ (Chart.dictGet (Chart.generate_chart_spec_post
          [("type", .str "bar"), ("xKey", .num 3), ("yKey", .str "a")]
          [[("a", .str "1")]]) "description").isSome = true :=
  c10_chart_spec_post_validated
    [("type", .str "bar"), ("xKey", .num 3), ("yKey", .str "a")]
    [[("a", .str "1")]] (.str "bar") (by rfl)
